import Mathlib

/-!
Verification of the ESG dashboard repository.

The repository is a React frontend over a Python backend.  The frontend
source is embedded below (the `esgReducer` state machine from
`frontend/src/context/ESGContext.jsx`, the `getRiskLevel` helper from
`frontend/src/components/ESGScoreCard.jsx`, and the two copies of
`getSentimentLabel` from `frontend/src/components/CompanyNews.jsx`).
The backend aggregator is not part of the source snapshot; where a claim
depends on it, the definition is modelled from the specification and is
marked as such in its doc comment.

Scores, weights and sentiment values are embedded as rationals.
-/

namespace ESG

/-- The five-valued risk rating enum of the data model
(`ScoreSet.risk_rating`; the five string labels appear in the frontend
in `getRiskColor` of the Analysis page). -/
inductive RiskRating where
  | LowRisk
  | MediumLowRisk
  | MediumRisk
  | MediumHighRisk
  | HighRisk
deriving DecidableEq, Repr

/-- Modelled from the spec: the backend risk-bucketing rule producing
`risk_rating` from `overall` is absent from the source snapshot; the spec
gives the thresholds `>=80 LowRisk`, `[65,80) MediumLowRisk`,
`[50,65) MediumRisk`, `[35,50) MediumHighRisk`, `<35 HighRisk`. -/
def riskRating (overall : ℚ) : RiskRating :=
  if overall ≥ 80 then .LowRisk
  else if overall ≥ 65 then .MediumLowRisk
  else if overall ≥ 50 then .MediumRisk
  else if overall ≥ 35 then .MediumHighRisk
  else .HighRisk

/-- A weight configuration for the three ESG pillars. -/
structure Weights where
  wE : ℚ
  wS : ℚ
  wG : ℚ
deriving DecidableEq, Repr

/-- The default weight configuration 0.35 / 0.35 / 0.30
(`ESG_ENVIRONMENTAL_WEIGHT` etc. in the configuration files). -/
def defaultWeights : Weights := ⟨35/100, 35/100, 30/100⟩

/-- Modelled from the spec: the backend weighted aggregation
`overall = environmental*wE + social*wS + governance*wG` is absent from
the source snapshot. -/
def overallScore (environmental social governance : ℚ) (w : Weights) : ℚ :=
  environmental * w.wE + social * w.wS + governance * w.wG

/-- Modelled from the spec: validation failures of the aggregator
(non-numeric input, weights not summing to 1). -/
inductive ValidationError where
  | nonNumeric
  | weightsNotSummingToOne
deriving DecidableEq, Repr

/-- A raw aggregation input: each sub-score is either a number or
non-numeric (`none`). -/
structure RawInput where
  environmental : Option ℚ
  social : Option ℚ
  governance : Option ℚ
deriving DecidableEq, Repr

/-- Modelled from the spec: the validating aggregator entry point, absent
from the source snapshot.  It rejects weight configurations not summing
to 1 and non-numeric sub-scores with a `ValidationError`, and otherwise
returns the weighted overall score and its risk rating. -/
def aggregate (inp : RawInput) (w : Weights) :
    Except ValidationError (ℚ × RiskRating) :=
  if w.wE + w.wS + w.wG ≠ 1 then .error .weightsNotSummingToOne
  else
    match inp.environmental, inp.social, inp.governance with
    | some e, some s, some g =>
        .ok (overallScore e s g w, riskRating (overallScore e s g w))
    | _, _, _ => .error .nonNumeric

/-- Modelled from the spec: the aggregator as a call against an ambient
server state of an arbitrary type `σ`.  The spec states the aggregator is
a pure function with no hidden state, so a call returns the pure result
and leaves the state untouched. -/
def aggregateCall {σ : Type} (st : σ) (inp : RawInput) (w : Weights) :
    Except ValidationError (ℚ × RiskRating) × σ :=
  (aggregate inp w, st)

/-- `getRiskLevel` from `ESGScoreCard.jsx` (with `maxScore = 100`, so the
percentage equals the score): a three-label display bucketing. -/
def getRiskLevel (score : ℚ) : String :=
  if score ≥ 80 then "Low Risk"
  else if score ≥ 60 then "Medium Risk"
  else "High Risk"

/-- `getSentimentLabel` as defined inside the `CompanyNews` component
(`CompanyNews.jsx`, first copy). -/
def getSentimentLabelNews (sentiment : ℚ) : String :=
  if sentiment > 3/10 then "Very Positive"
  else if sentiment > 1/10 then "Positive"
  else if sentiment < -(3/10) then "Very Negative"
  else if sentiment < -(1/10) then "Negative"
  else "Neutral"

/-- `getSentimentLabel` as defined inside the `SentimentChart` component
(`CompanyNews.jsx`, second copy). -/
def getSentimentLabelChart (sentiment : ℚ) : String :=
  if sentiment > 3/10 then "Very Positive"
  else if sentiment > 1/10 then "Positive"
  else if sentiment < -(3/10) then "Very Negative"
  else if sentiment < -(1/10) then "Negative"
  else "Neutral"

/-- A `ScoreSet` as stored in a company analysis payload. -/
structure ScoreSet where
  environmental : ℚ
  social : ℚ
  governance : ℚ
  overall : ℚ
  risk_rating : RiskRating
deriving DecidableEq, Repr

/-- A `CompanyAnalysisRecord`: a ScoreSet with a timestamp, a symbol and
the externally sourced sentiment / financial payloads. -/
structure CompanyAnalysisRecord where
  symbol : String
  timestamp : Nat
  esg_scores : ScoreSet
  sentiment : ℚ
  financial : ℚ
deriving DecidableEq, Repr

/-- A frontend toast entry as dispatched by `ADD_NOTIFICATION`. -/
structure Notification where
  id : Nat
  kind : String
  message : String
  timestamp : Nat
deriving DecidableEq, Repr

/-- An opaque market-data payload (`UPDATE_MARKET_DATA`). -/
structure MarketData where
  raw : String
deriving DecidableEq, Repr

/-- A socket handle (`SET_SOCKET`); only its identity matters here. -/
abbrev Socket := Nat

/-- The reducer state of `ESGContext.jsx`. -/
structure ESGState where
  companies : List CompanyAnalysisRecord
  currentAnalysis : Option CompanyAnalysisRecord
  loading : Bool
  error : Option String
  marketData : Option MarketData
  portfolio : List CompanyAnalysisRecord
  notifications : List Notification
  socket : Option Socket
deriving DecidableEq, Repr

/-- `initialState` from `ESGContext.jsx`: empty lists, everything null,
not loading. -/
def initialState : ESGState :=
  { companies := []
  , currentAnalysis := none
  , loading := false
  , error := none
  , marketData := none
  , portfolio := []
  , notifications := []
  , socket := none }

/-- The action alphabet of `esgReducer`; `other` stands for any
unrecognised action type (the reducer's `default` branch). -/
inductive Action where
  | setLoading (b : Bool)
  | setError (msg : Option String)
  | setCurrentAnalysis (c : CompanyAnalysisRecord)
  | addCompany (c : CompanyAnalysisRecord)
  | updateMarketData (m : MarketData)
  | addToPortfolio (c : CompanyAnalysisRecord)
  | removeFromPortfolio (sym : String)
  | addNotification (n : Notification)
  | setSocket (sock : Socket)
  | other

/-- `esgReducer` from `ESGContext.jsx`, case by case.  `ADD_COMPANY`
appends at the end (`[...state.companies, payload]`), `ADD_NOTIFICATION`
prepends and keeps at most 9 previous entries
(`[payload, ...state.notifications.slice(0, 9)]`),
`REMOVE_FROM_PORTFOLIO` filters by symbol inequality. -/
def esgReducer (state : ESGState) (action : Action) : ESGState :=
  match action with
  | .setLoading b => { state with loading := b }
  | .setError msg => { state with error := msg, loading := false }
  | .setCurrentAnalysis c =>
      { state with currentAnalysis := some c, loading := false }
  | .addCompany c =>
      { state with companies := state.companies ++ [c], loading := false }
  | .updateMarketData m => { state with marketData := some m }
  | .addToPortfolio c =>
      { state with portfolio := state.portfolio ++ [c] }
  | .removeFromPortfolio sym =>
      { state with portfolio := state.portfolio.filter (fun item => item.symbol != sym) }
  | .addNotification n =>
      { state with notifications := n :: state.notifications.take 9 }
  | .setSocket sock => { state with socket := some sock }
  | .other => state

/-- Left fold of the reducer over a list of dispatched actions. -/
def runActions (acts : List Action) (s : ESGState) : ESGState :=
  acts.foldl esgReducer s

end ESG

namespace ESG

/-- C1: the risk rating is the five-bucket deterministic step function of
`overall`: `>=80` LowRisk, `[65,80)` MediumLowRisk, `[50,65)` MediumRisk,
`[35,50)` MediumHighRisk, `<35` HighRisk; in particular 80 gives LowRisk,
79.9 gives MediumLowRisk, 50 gives MediumRisk and 34.9 gives HighRisk. -/
theorem riskRating_step (overall : ℚ) :
    (overall ≥ 80 → riskRating overall = .LowRisk) ∧
    (65 ≤ overall ∧ overall < 80 → riskRating overall = .MediumLowRisk) ∧
    (50 ≤ overall ∧ overall < 65 → riskRating overall = .MediumRisk) ∧
    (35 ≤ overall ∧ overall < 50 → riskRating overall = .MediumHighRisk) ∧
    (overall < 35 → riskRating overall = .HighRisk) ∧
    riskRating 80 = .LowRisk ∧ riskRating (799/10) = .MediumLowRisk ∧
    riskRating 50 = .MediumRisk ∧ riskRating (349/10) = .HighRisk := by
  refine ⟨?_, ?_, ?_, ?_, ?_, by norm_num [riskRating], by norm_num [riskRating],
    by norm_num [riskRating], by norm_num [riskRating]⟩ <;>
    · intro h
      unfold riskRating
      split_ifs <;>
        first | rfl | (exfalso; (try obtain ⟨ha, hb⟩ := h); linarith)

/-- Witness for C1 at concrete overall scores in each bucket. -/
theorem riskRating_step_witness :
    riskRating 90 = .LowRisk ∧ riskRating 70 = .MediumLowRisk ∧
    riskRating 55 = .MediumRisk ∧ riskRating 40 = .MediumHighRisk ∧
    riskRating 20 = .HighRisk :=
  ⟨(riskRating_step 90).1 (by norm_num),
   (riskRating_step 70).2.1 ⟨by norm_num, by norm_num⟩,
   (riskRating_step 55).2.2.1 ⟨by norm_num, by norm_num⟩,
   (riskRating_step 40).2.2.2.1 ⟨by norm_num, by norm_num⟩,
   (riskRating_step 20).2.2.2.2.1 (by norm_num)⟩

/-- C2: the aggregator returns `overall = environmental*wE + social*wS +
governance*wG`; with sub-scores 90/70/60 and the default weights
0.35/0.35/0.30 it returns exactly 74.0 and rates it MediumLowRisk. -/
theorem overallScore_weighted_sum :
    (∀ (e s g : ℚ) (w : Weights),
        overallScore e s g w = e * w.wE + s * w.wS + g * w.wG) ∧
    overallScore 90 70 60 defaultWeights = 74 ∧
    aggregate ⟨some 90, some 70, some 60⟩ defaultWeights =
      .ok (74, .MediumLowRisk) := by
  refine ⟨fun e s g w => rfl, by norm_num [overallScore, defaultWeights], ?_⟩
  have hsum : defaultWeights.wE + defaultWeights.wS + defaultWeights.wG = 1 := by
    norm_num [defaultWeights]
  have hov : overallScore 90 70 60 defaultWeights = 74 := by
    norm_num [overallScore, defaultWeights]
  simp only [aggregate, hsum, ne_eq, not_true_eq_false, if_false, hov]
  norm_num [riskRating]

/-- C3: with weights in `[0,1]` summing to 1 and sub-scores in `[0,100]`,
the aggregated overall score lies in `[0,100]`. -/
theorem overallScore_bounded (e s g : ℚ) (w : Weights)
    (hE0 : 0 ≤ w.wE) (hE1 : w.wE ≤ 1) (hS0 : 0 ≤ w.wS) (hS1 : w.wS ≤ 1)
    (hG0 : 0 ≤ w.wG) (hG1 : w.wG ≤ 1) (hsum : w.wE + w.wS + w.wG = 1)
    (he : 0 ≤ e ∧ e ≤ 100) (hs : 0 ≤ s ∧ s ≤ 100)
    (hg : 0 ≤ g ∧ g ≤ 100) :
    0 ≤ overallScore e s g w ∧ overallScore e s g w ≤ 100 := by
  unfold overallScore
  constructor
  · have := mul_nonneg he.1 hE0
    have := mul_nonneg hs.1 hS0
    have := mul_nonneg hg.1 hG0
    linarith
  · have h1 : e * w.wE ≤ 100 * w.wE := mul_le_mul_of_nonneg_right he.2 hE0
    have h2 : s * w.wS ≤ 100 * w.wS := mul_le_mul_of_nonneg_right hs.2 hS0
    have h3 : g * w.wG ≤ 100 * w.wG := mul_le_mul_of_nonneg_right hg.2 hG0
    have : 100 * w.wE + 100 * w.wS + 100 * w.wG = 100 := by linarith
    linarith

/-- Witness for C3 at sub-scores 90/70/60 with the default weights. -/
theorem overallScore_bounded_witness :
    0 ≤ overallScore 90 70 60 defaultWeights ∧
    overallScore 90 70 60 defaultWeights ≤ 100 :=
  overallScore_bounded 90 70 60 defaultWeights
    (by norm_num [defaultWeights]) (by norm_num [defaultWeights])
    (by norm_num [defaultWeights]) (by norm_num [defaultWeights])
    (by norm_num [defaultWeights]) (by norm_num [defaultWeights])
    (by norm_num [defaultWeights])
    ⟨by norm_num, by norm_num⟩ ⟨by norm_num, by norm_num⟩
    ⟨by norm_num, by norm_num⟩

/-- C4: with non-negative weights, the overall score is monotonic
non-decreasing in each sub-score separately. -/
theorem overallScore_monotone (w : Weights)
    (hE : 0 ≤ w.wE) (hS : 0 ≤ w.wS) (hG : 0 ≤ w.wG) :
    (∀ e1 e2 s g, e1 ≤ e2 →
        overallScore e1 s g w ≤ overallScore e2 s g w) ∧
    (∀ e s1 s2 g, s1 ≤ s2 →
        overallScore e s1 g w ≤ overallScore e s2 g w) ∧
    (∀ e s g1 g2, g1 ≤ g2 →
        overallScore e s g1 w ≤ overallScore e s g2 w) := by
  refine ⟨fun e1 e2 s g h => ?_, fun e s1 s2 g h => ?_, fun e s g1 g2 h => ?_⟩
  · unfold overallScore
    have := mul_le_mul_of_nonneg_right h hE
    linarith
  · unfold overallScore
    have := mul_le_mul_of_nonneg_right h hS
    linarith
  · unfold overallScore
    have := mul_le_mul_of_nonneg_right h hG
    linarith

/-- Witness for C4: raising the environmental score from 10 to 20 under
the default weights does not decrease the overall score. -/
theorem overallScore_monotone_witness :
    overallScore 10 50 50 defaultWeights ≤ overallScore 20 50 50 defaultWeights :=
  (overallScore_monotone defaultWeights
    (by norm_num [defaultWeights]) (by norm_num [defaultWeights])
    (by norm_num [defaultWeights])).1 10 20 50 50 (by norm_num)

/-- C5: the aggregator rejects weight triples not summing to 1 (for
example 0.4/0.4/0.4) and non-numeric sub-scores with a `ValidationError`,
and has no other error condition: on numeric sub-scores with weights
summing to 1 it succeeds. -/
theorem aggregate_validation :
    (∀ (inp : RawInput) (w : Weights), w.wE + w.wS + w.wG ≠ 1 →
        aggregate inp w = .error .weightsNotSummingToOne) ∧
    (∀ (inp : RawInput), aggregate inp ⟨2/5, 2/5, 2/5⟩ =
        .error .weightsNotSummingToOne) ∧
    (∀ (inp : RawInput) (w : Weights),
        (inp.environmental = none ∨ inp.social = none ∨ inp.governance = none) →
        ∃ err, aggregate inp w = .error err) ∧
    (∀ (e s g : ℚ) (w : Weights), w.wE + w.wS + w.wG = 1 →
        ∃ out, aggregate ⟨some e, some s, some g⟩ w = .ok out) := by
  refine ⟨fun inp w h => ?_, fun inp => ?_, fun inp w h => ?_, fun e s g w h => ?_⟩
  · simp only [aggregate, if_pos h]
  · simp only [aggregate]
    norm_num
  · obtain ⟨E, S, G⟩ := inp
    unfold aggregate
    split_ifs with hw
    · exact ⟨.weightsNotSummingToOne, rfl⟩
    · refine ⟨.nonNumeric, ?_⟩
      cases E <;> cases S <;> cases G <;> first | rfl | simp_all
  · refine ⟨(overallScore e s g w, riskRating (overallScore e s g w)), ?_⟩
    simp only [aggregate, h, ne_eq, not_true_eq_false, if_false]

/-- Witness for C5: weights 0.4/0.4/0.4 are rejected, a non-numeric
environmental score is rejected, and numeric input under the default
weights succeeds. -/
theorem aggregate_validation_witness :
    aggregate ⟨some 1, some 2, some 3⟩ ⟨2/5, 2/5, 2/5⟩ =
        .error .weightsNotSummingToOne ∧
    (∃ err, aggregate ⟨none, some 2, some 3⟩ defaultWeights = .error err) ∧
    (∃ out, aggregate ⟨some 90, some 70, some 60⟩ defaultWeights = .ok out) :=
  ⟨(aggregate_validation).1 ⟨some 1, some 2, some 3⟩ ⟨2/5, 2/5, 2/5⟩
      (by norm_num),
   (aggregate_validation).2.2.1 ⟨none, some 2, some 3⟩ defaultWeights
      (Or.inl rfl),
   (aggregate_validation).2.2.2 90 70 60 defaultWeights
      (by norm_num [defaultWeights])⟩

/-- C6: the aggregator is pure and deterministic: two successive calls
with identical input against any ambient server state return identical
results, and neither call changes the state. -/
theorem aggregateCall_pure {σ : Type} (st : σ) (inp : RawInput) (w : Weights) :
    (aggregateCall st inp w).1 =
      (aggregateCall (aggregateCall st inp w).2 inp w).1 ∧
    (aggregateCall st inp w).2 = st ∧
    (aggregateCall (aggregateCall st inp w).2 inp w).2 = st :=
  ⟨rfl, rfl, rfl⟩

/-- One reducer step never edits a stored company record: the previous
companies list survives as a sublist (in fact every action either leaves
it unchanged or appends at the end). -/
lemma step_companies_sublist (s : ESGState) (a : Action) :
    List.Sublist s.companies (esgReducer s a).companies := by
  cases a
  case addCompany c => exact List.sublist_append_left _ _
  all_goals exact List.Sublist.refl _

/-- One reducer step never edits a stored portfolio record: every record
in the new portfolio is an old record or the payload of this action. -/
lemma step_portfolio_mem (s : ESGState) (a : Action) :
    ∀ c ∈ (esgReducer s a).portfolio,
      c ∈ s.portfolio ∨ a = .addToPortfolio c := by
  intro c hc
  cases a
  case addToPortfolio p =>
    simp only [esgReducer] at hc
    rcases List.mem_append.mp hc with h | h
    · exact Or.inl h
    · simp only [List.mem_singleton] at h
      exact Or.inr (by rw [h])
  case removeFromPortfolio sym =>
    simp only [esgReducer] at hc
    exact Or.inl (List.mem_filter.mp hc).1
  all_goals exact Or.inl hc

/-- A sample analysis record used to instantiate the reducer theorems. -/
def sampleRecord : CompanyAnalysisRecord :=
  { symbol := "AAPL"
  , timestamp := 0
  , esg_scores :=
      { environmental := 90, social := 70, governance := 60
      , overall := 74, risk_rating := .MediumLowRisk }
  , sentiment := 1/10
  , financial := 0 }

/-- C7: analysis records are immutable snapshots: after any sequence of
reducer actions, the original companies list survives unchanged as a
sublist (new analyses only append), and every record in the resulting
portfolio is either an original record, unchanged, or the payload of one
of the dispatched `addToPortfolio` actions. -/
theorem records_immutable (acts : List Action) (s : ESGState) :
    List.Sublist s.companies (runActions acts s).companies ∧
    (∀ c ∈ (runActions acts s).portfolio,
        c ∈ s.portfolio ∨ Action.addToPortfolio c ∈ acts) ∧
    (∀ (s2 : ESGState) (c : CompanyAnalysisRecord),
        (esgReducer s2 (.addCompany c)).companies = s2.companies ++ [c]) := by
  refine ⟨?_, ?_, fun s2 c => rfl⟩
  · induction acts generalizing s with
    | nil => exact List.Sublist.refl _
    | cons a as ih =>
        exact (step_companies_sublist s a).trans (ih (esgReducer s a))
  · induction acts generalizing s with
    | nil => exact fun c hc => Or.inl hc
    | cons a as ih =>
        intro c hc
        rcases ih (esgReducer s a) c hc with hmem | hact
        · rcases step_portfolio_mem s a c hmem with h | h
          · exact Or.inl h
          · exact Or.inr (h ▸ List.mem_cons_self a as)
        · exact Or.inr (List.mem_cons_of_mem a hact)

/-- Witness for C7: a record present before a `setLoading` dispatch is
still an original record afterwards. -/
theorem records_immutable_witness :
    sampleRecord ∈
        ({ initialState with portfolio := [sampleRecord] } : ESGState).portfolio ∨
      Action.addToPortfolio sampleRecord ∈ [Action.setLoading true] :=
  (records_immutable [Action.setLoading true]
      { initialState with portfolio := [sampleRecord] }).2.1
    sampleRecord (by simp [runActions, esgReducer])

/-- One reducer step keeps the toast list within 10 entries. -/
lemma step_notifications_le (s : ESGState) (a : Action)
    (h : s.notifications.length ≤ 10) :
    (esgReducer s a).notifications.length ≤ 10 := by
  cases a
  case addNotification n =>
    simp only [esgReducer, List.length_cons]
    have := List.length_take_le 9 s.notifications
    omega
  all_goals exact h

/-- C8: from the initial state, any sequence of reducer actions leaves at
most 10 toast entries, and each `addNotification` prepends its payload and
keeps at most the 9 most recent previous entries. -/
theorem notifications_bounded :
    (∀ acts : List Action,
        (runActions acts initialState).notifications.length ≤ 10) ∧
    (∀ (s : ESGState) (n : Notification),
        (esgReducer s (.addNotification n)).notifications =
          n :: s.notifications.take 9) := by
  refine ⟨?_, fun s n => rfl⟩
  have key : ∀ (acts : List Action) (s : ESGState),
      s.notifications.length ≤ 10 →
      (runActions acts s).notifications.length ≤ 10 := by
    intro acts
    induction acts with
    | nil => exact fun s h => h
    | cons a as ih =>
        exact fun s h => ih (esgReducer s a) (step_notifications_le s a h)
  exact fun acts => key acts initialState (by simp [initialState])

/-- C9: the two copies of `getSentimentLabel` (in `CompanyNews` and in
`SentimentChart`) agree on every sentiment value, and both realise the
spec labelling: above 0.3 Very Positive, in (0.1, 0.3] Positive, below
-0.3 Very Negative, in [-0.3, -0.1) Negative, otherwise Neutral. -/
theorem getSentimentLabel_copies_agree (s : ℚ) :
    getSentimentLabelNews s = getSentimentLabelChart s ∧
    (s > 3/10 → getSentimentLabelNews s = "Very Positive") ∧
    (1/10 < s ∧ s ≤ 3/10 → getSentimentLabelNews s = "Positive") ∧
    (s < -(3/10) → getSentimentLabelNews s = "Very Negative") ∧
    (-(3/10) ≤ s ∧ s < -(1/10) → getSentimentLabelNews s = "Negative") ∧
    (-(1/10) ≤ s ∧ s ≤ 1/10 → getSentimentLabelNews s = "Neutral") := by
  refine ⟨rfl, ?_, ?_, ?_, ?_, ?_⟩ <;>
    · intro h
      unfold getSentimentLabelNews
      split_ifs <;>
        first
          | rfl
          | (exfalso; (try obtain ⟨ha, hb⟩ := h); norm_num at *; linarith)

/-- Witness for C9 at one sentiment value in each band. -/
theorem getSentimentLabel_copies_agree_witness :
    getSentimentLabelNews (1/2) = "Very Positive" ∧
    getSentimentLabelNews (1/5) = "Positive" ∧
    getSentimentLabelNews (-(1/2)) = "Very Negative" ∧
    getSentimentLabelNews (-(1/5)) = "Negative" ∧
    getSentimentLabelNews 0 = "Neutral" :=
  ⟨(getSentimentLabel_copies_agree (1/2)).2.1 (by norm_num),
   (getSentimentLabel_copies_agree (1/5)).2.2.1 ⟨by norm_num, by norm_num⟩,
   (getSentimentLabel_copies_agree (-(1/2))).2.2.2.1 (by norm_num),
   (getSentimentLabel_copies_agree (-(1/5))).2.2.2.2.1 ⟨by norm_num, by norm_num⟩,
   (getSentimentLabel_copies_agree 0).2.2.2.2.2 ⟨by norm_num, by norm_num⟩⟩

/-- C10: `removeFromPortfolio` keeps exactly the entries whose symbol
differs from the given symbol, in their original relative order, and
leaves every other state field unchanged. -/
theorem removeFromPortfolio_frame (s : ESGState) (sym : String) :
    List.Sublist (esgReducer s (.removeFromPortfolio sym)).portfolio s.portfolio ∧
    (∀ c, c ∈ (esgReducer s (.removeFromPortfolio sym)).portfolio ↔
        c ∈ s.portfolio ∧ c.symbol ≠ sym) ∧
    (esgReducer s (.removeFromPortfolio sym)).companies = s.companies ∧
    (esgReducer s (.removeFromPortfolio sym)).currentAnalysis = s.currentAnalysis ∧
    (esgReducer s (.removeFromPortfolio sym)).loading = s.loading ∧
    (esgReducer s (.removeFromPortfolio sym)).error = s.error ∧
    (esgReducer s (.removeFromPortfolio sym)).marketData = s.marketData ∧
    (esgReducer s (.removeFromPortfolio sym)).notifications = s.notifications ∧
    (esgReducer s (.removeFromPortfolio sym)).socket = s.socket := by
  refine ⟨List.filter_sublist _, fun c => ?_, rfl, rfl, rfl, rfl, rfl, rfl, rfl⟩
  simp [esgReducer, List.mem_filter]

end ESG
